import Mathlib

/-!
Shallow embedding of the Healthy-Eating-Tracker core (src/app.py):
SecurityManager validators and sanitization, UserManager register/login/update_profile,
DietPlanGenerator calorie target, plan generation, food analysis and BMI.
Numbers are modelled as rationals; Python round() is round-half-to-even,
int() truncates toward zero.  bcrypt hashing/verification is external and is
modelled as explicit function parameters.
-/

namespace HET

/-- Python round-half-to-even of a rational to an integer, as Python round(x). -/
def pyRound (q : ℚ) : ℤ :=
  if q - ⌊q⌋ < 1/2 then ⌊q⌋
  else if 1/2 < q - ⌊q⌋ then ⌊q⌋ + 1
  else if ⌊q⌋ % 2 = 0 then ⌊q⌋ else ⌊q⌋ + 1

/-- Python round(x, 1): round to one decimal place, half-to-even. -/
def pyRound1 (q : ℚ) : ℚ :=
  (pyRound (q * 10) : ℚ) / 10

/-- Python int(x): truncation toward zero. -/
def pyTrunc (q : ℚ) : ℤ :=
  if q < 0 then ⌈q⌉ else ⌊q⌋

/-- Python str.strip character class (ASCII whitespace). -/
def pyIsSpace (c : Char) : Bool :=
  c = ' ' || c = '\t' || c = '\n' || c = '\r' || c = '\x0b' || c = '\x0c'

/-- Python str.strip(): drop whitespace from both ends. -/
def pyStrip (l : List Char) : List Char :=
  ((l.dropWhile pyIsSpace).reverse.dropWhile pyIsSpace).reverse

/-- Characters removed by SecurityManager.sanitize_input. -/
def isDangerous (c : Char) : Bool :=
  c = '<' || c = '>' || c = '"' || c = '\'' || c = '&' || c = ';'

/-- SecurityManager.sanitize_input: remove dangerous characters, then strip. -/
def sanitize_input (s : String) : String :=
  ⟨pyStrip (s.toList.filter (fun c => !(isDangerous c)))⟩

/-- SecurityManager.validate_username: length in [3,20], chars in [a-zA-Z0-9_]. -/
def validate_username (s : String) : Bool :=
  decide (3 ≤ s.length) && decide (s.length ≤ 20) &&
    s.toList.all (fun c => c.isAlphanum || c = '_')

/-- SecurityManager.validate_password: non-empty and length at least 6. -/
def validate_password (s : String) : Bool :=
  !s.isEmpty && decide (6 ≤ s.length)

/-- SecurityManager.validate_food_name: non-empty, length at most 50,
chars in [a-zA-Z0-9 whitespace -]. -/
def validate_food_name (s : String) : Bool :=
  !s.isEmpty && decide (s.length ≤ 50) &&
    s.toList.all (fun c => c.isAlphanum || pyIsSpace c || c = '-')

/-- Input to SecurityManager.safe_float_convert: Python None, the empty string,
a string parsing to a number, or an unparsable value. -/
inductive NumInput where
  | absent : NumInput
  | empty : NumInput
  | parsed : ℚ → NumInput
  | unparsable : NumInput
deriving DecidableEq, Repr

/-- SecurityManager.safe_float_convert with both bounds given: None / '' /
unparsable yield None; a parsed number is clamped into [lo, hi]. -/
def safe_float_convert (i : NumInput) (lo hi : ℚ) : Option ℚ :=
  match i with
  | .absent => none
  | .empty => none
  | .unparsable => none
  | .parsed q => some (if q < lo then lo else if q > hi then hi else q)

/-- A stored user record, with the keys created by UserManager.register:
username, password (the stored hash), nickname, height, weight, target_weight,
goal, register_time.  Numeric profile fields are Python None or a number. -/
structure UserRecord where
  username : String
  password : String
  nickname : String
  height : Option ℚ
  weight : Option ℚ
  target_weight : Option ℚ
  goal : String
  register_time : String
deriving DecidableEq, Repr

/-- A JSON-style field value, for the dictionary view returned by login. -/
inductive Val where
  | s : String → Val
  | n : ℚ → Val
  | null : Val
deriving DecidableEq, Repr

/-- View of an optional numeric field as a dictionary value. -/
def optVal (o : Option ℚ) : Val :=
  match o with
  | none => Val.null
  | some q => Val.n q

/-- The dictionary returned by UserManager.login on success: a copy of the user
record with the password key popped, in insertion order. -/
def toPublic (u : UserRecord) : List (String × Val) :=
  [("username", Val.s u.username), ("nickname", Val.s u.nickname),
   ("height", optVal u.height), ("weight", optVal u.weight),
   ("target_weight", optVal u.target_weight), ("goal", Val.s u.goal),
   ("register_time", Val.s u.register_time)]

/-- An entry of the food_database: nutrients per 100 units; sugar is optional. -/
structure FoodEntry where
  calories : ℚ
  protein : ℚ
  carbs : ℚ
  fat : ℚ
  sugar : Option ℚ
deriving DecidableEq, Repr

/-- The food_database module-level dictionary. -/
def food_database : List (String × FoodEntry) :=
  [("Chicken Breast", ⟨165, 31, 0, 36/10, some 0⟩),
   ("Brown Rice", ⟨216, 45/10, 45, 18/10, some (4/10)⟩),
   ("Broccoli", ⟨34, 28/10, 66/10, 4/10, some (17/10)⟩),
   ("Salmon", ⟨208, 22, 0, 13, some 0⟩),
   ("Avocado", ⟨160, 2, 85/10, 147/10, some (7/10)⟩),
   ("Whole Wheat Bread", ⟨250, 9, 45, 3, none⟩),
   ("Eggs", ⟨140, 13, 1, 10, none⟩),
   ("Milk", ⟨60, 3, 5, 3, none⟩),
   ("Oatmeal", ⟨380, 13, 68, 7, none⟩),
   ("Nuts", ⟨600, 20, 20, 50, none⟩),
   ("Tofu", ⟨76, 8, 19/10, 48/10, none⟩),
   ("Banana", ⟨89, 11/10, 228/10, 3/10, some (122/10)⟩),
   ("Apple", ⟨52, 3/10, 138/10, 2/10, some (104/10)⟩),
   ("Orange", ⟨47, 9/10, 118/10, 1/10, some (94/10)⟩),
   ("Carrot", ⟨41, 9/10, 96/10, 2/10, some (47/10)⟩)]

/-- Exact-match lookup in the food_database dictionary. -/
def lookupFood (name : String) : Option FoodEntry :=
  (food_database.lookup name)

/-- A template meal entry of diet_plan_templates. -/
structure Meal where
  name : String
  calories : ℚ
  protein : ℚ
  carbs : ℚ
  fat : ℚ
deriving DecidableEq, Repr

/-- An output item of generate_diet_plan (Python round gives integers). -/
structure PlanItem where
  name : String
  calories : ℤ
  protein : ℤ
  carbs : ℤ
  fat : ℤ
deriving DecidableEq, Repr

/-- diet_plan_templates.get(goal, diet_plan_templates['maintenance']):
the goal-keyed template table with fallback to maintenance. -/
def diet_plan_templates (goal : String) : List Meal :=
  if goal = "weight-loss" then
    [⟨"Breakfast", 400, 20, 40, 15⟩, ⟨"Lunch", 500, 30, 50, 20⟩,
     ⟨"Dinner", 400, 25, 30, 15⟩]
  else if goal = "muscle-gain" then
    [⟨"Breakfast", 600, 40, 60, 20⟩, ⟨"Lunch", 700, 50, 70, 25⟩,
     ⟨"Dinner", 600, 45, 50, 20⟩]
  else
    [⟨"Breakfast", 500, 25, 50, 20⟩, ⟨"Lunch", 600, 35, 60, 25⟩,
     ⟨"Dinner", 500, 30, 40, 20⟩]

/-- The new_user dictionary built by UserManager.register before appending. -/
def newUserRecord (hash : String → String) (now username password nickname : String)
    (height weight target_weight : NumInput) : UserRecord :=
  { username := username
    password := hash password
    nickname := sanitize_input nickname
    height := safe_float_convert height 100 250
    weight := safe_float_convert weight 30 200
    target_weight := safe_float_convert target_weight 30 200
    goal := "maintenance"
    register_time := now }

/-- UserManager.register.  The bcrypt hash is an explicit function parameter,
now stands for datetime.now().isoformat(), and saveOk is the result of the
durable write (save_users).  Returns the new in-memory user list together with
the (success, message) pair the source returns. -/
def register (hash : String → String) (now : String) (saveOk : Bool)
    (users : List UserRecord) (username password nickname : String)
    (height weight target_weight : NumInput) :
    List UserRecord × Bool × String :=
  if validate_username username = false then
    (users, false, "Invalid username format (3-20 characters: letters, numbers, underscore)")
  else if validate_password password = false then
    (users, false, "Password must be at least 6 characters")
  else if users.any (fun u => u.username == username) then
    (users, false, "Username already exists")
  else
    let newUser : UserRecord :=
      newUserRecord hash now username password nickname height weight target_weight
    if saveOk then
      (users ++ [newUser], true, "Registration successful")
    else
      (users ++ [newUser], false, "Registration failed: data save error")

/-- UserManager.login.  bcrypt verification is the explicit verify parameter
(it returns false rather than raising on any malformed input).  Scans the user
list in order; returns the first record whose username matches and whose stored
hash verifies, as a dictionary with the password key popped. -/
def login (verify : String → String → Bool) (username password : String) :
    List UserRecord → Except String (List (String × Val))
  | [] => Except.error "Incorrect username or password"
  | u :: rest =>
    if u.username = username ∧ verify password u.password = true then
      Except.ok (toPublic u)
    else
      login verify username password rest

/-- The keyword arguments accepted by the profile route's call to
UserManager.update_profile: one optional slot per mutable attribute
(none means the key is absent from kwargs). -/
structure ProfileUpdate where
  nickname : Option String
  height : Option NumInput
  weight : Option NumInput
  target_weight : Option NumInput
  goal : Option String
deriving Repr

/-- The empty update (no keys present). -/
def ProfileUpdate.empty : ProfileUpdate :=
  ⟨none, none, none, none, none⟩

/-- The assignment loop of update_profile applied to the matched record:
each present key is sanitized / converted, and a value that converted to
None is skipped (the old value is kept). -/
def applyUpdate (u : UserRecord) (k : ProfileUpdate) : UserRecord :=
  { username := u.username
    password := u.password
    nickname := match k.nickname with
      | none => u.nickname
      | some s => sanitize_input s
    height := match k.height with
      | none => u.height
      | some i => match safe_float_convert i 100 250 with
        | none => u.height
        | some v => some v
    weight := match k.weight with
      | none => u.weight
      | some i => match safe_float_convert i 30 200 with
        | none => u.weight
        | some v => some v
    target_weight := match k.target_weight with
      | none => u.target_weight
      | some i => match safe_float_convert i 30 200 with
        | none => u.target_weight
        | some v => some v
    goal := match k.goal with
      | none => u.goal
      | some g => g
    register_time := u.register_time }

/-- The fixed goal enumeration checked by update_profile. -/
def goalOK (g : String) : Prop :=
  g = "weight-loss" ∨ g = "muscle-gain" ∨ g = "maintenance"

instance (g : String) : Decidable (goalOK g) := by
  unfold goalOK
  infer_instance

/-- The test "'goal' in kwargs and kwargs['goal'] not in [...]" of
update_profile, as the complement boolean: true iff goal is absent or valid. -/
def goal_value_ok (k : ProfileUpdate) : Bool :=
  match k.goal with
  | none => true
  | some g => decide (goalOK g)

/-- UserManager.update_profile.  Scans for the first record with the given
username; validates goal against the enumeration before mutating; mutates the
record in place and saves.  Returns the new user list and (success, message). -/
def update_profile (saveOk : Bool) (username : String) (k : ProfileUpdate) :
    List UserRecord → List UserRecord × Bool × String
  | [] => ([], false, "User does not exist")
  | u :: rest =>
    if u.username = username then
      if goal_value_ok k = false then
        (u :: rest, false, "Invalid goal type")
      else if saveOk then
        (applyUpdate u k :: rest, true, "Profile updated successfully")
      else
        (applyUpdate u k :: rest, false, "Profile update failed: data save error")
    else
      let out := update_profile saveOk username k rest
      (u :: out.1, out.2.1, out.2.2)

/-- Unfolding equation of update_profile on a non-empty store. -/
lemma update_profile_cases (saveOk : Bool) (username : String) (k : ProfileUpdate)
    (u : UserRecord) (rest : List UserRecord) :
    update_profile saveOk username k (u :: rest) =
      if u.username = username then
        if goal_value_ok k = false then
          (u :: rest, false, "Invalid goal type")
        else if saveOk then
          (applyUpdate u k :: rest, true, "Profile updated successfully")
        else
          (applyUpdate u k :: rest, false, "Profile update failed: data save error")
      else
        (u :: (update_profile saveOk username k rest).1,
          (update_profile saveOk username k rest).2.1,
          (update_profile saveOk username k rest).2.2) := rfl

/-- DietPlanGenerator.calculate_daily_calories: height/weight default via
Python `or` (None or 0 falls back to 170 / 65), fixed reference age 25,
goal adjustment, then max(1200, int(base)). -/
def calculate_daily_calories (u : UserRecord) : ℤ :=
  let height : ℚ := match u.height with
    | none => 170
    | some v => if v = 0 then 170 else v
  let weight : ℚ := match u.weight with
    | none => 65
    | some v => if v = 0 then 65 else v
  let base : ℚ := 10 * weight + (625/100) * height - 5 * 25 + 5
  let adjusted : ℚ :=
    if u.goal = "weight-loss" then base - 400
    else if u.goal = "muscle-gain" then base + 300
    else base
  max 1200 (pyTrunc adjusted)

/-- One meal of generate_diet_plan: scale the template meal by the calorie
factor, round, and apply the per-field floors. -/
def scaleMeal (factor : ℚ) (m : Meal) : PlanItem :=
  { name := m.name
    calories := max 100 (pyRound (m.calories * factor))
    protein := max 5 (pyRound (m.protein * factor))
    carbs := max 10 (pyRound (m.carbs * factor))
    fat := max 5 (pyRound (m.fat * factor)) }

/-- DietPlanGenerator.generate_diet_plan: pick the goal's template (falling
back to maintenance), scale every meal by dailyCalories / templateCalories. -/
def generate_diet_plan (u : UserRecord) : List PlanItem :=
  let daily : ℤ := calculate_daily_calories u
  let template : List Meal := diet_plan_templates u.goal
  let total : ℚ := (template.map (fun m => m.calories)).sum
  let factor : ℚ := (daily : ℚ) / total
  template.map (scaleMeal factor)

/-- The nutrition analysis returned by analyze_food: integer calories,
one-decimal protein/carbs/fat/sugar. -/
structure Analysis where
  calories : ℤ
  protein : ℚ
  carbs : ℚ
  fat : ℚ
  sugar : ℚ
deriving DecidableEq, Repr

/-- DietPlanGenerator.analyze_food: validate the name, clamp the amount into
[1,10000] with default 100, look the food up, scale nutrients by amount/100
with rounding and non-negativity floors (missing sugar counts as 0). -/
def analyze_food (name : String) (amount : NumInput) : Except String Analysis :=
  if validate_food_name name = false then
    Except.error "Invalid food name"
  else
    let amt : ℚ := (safe_float_convert amount 1 10000).getD 100
    match lookupFood name with
    | some food =>
      let factor : ℚ := amt / 100
      Except.ok
        { calories := max 0 (pyRound (food.calories * factor))
          protein := max 0 (pyRound1 (food.protein * factor))
          carbs := max 0 (pyRound1 (food.carbs * factor))
          fat := max 0 (pyRound1 (food.fat * factor))
          sugar := max 0 (pyRound1 ((food.sugar.getD 0) * factor)) }
    | none => Except.error "Sorry, this food was not found in the database"

/-- DietPlanGenerator.calculate_bmi: None when either input is Python-falsy
(None or 0); otherwise weight / (height/100)^2 rounded to one decimal and
clamped into [10,50]. -/
def calculate_bmi (height weight : Option ℚ) : Option ℚ :=
  match height, weight with
  | none, _ => none
  | _, none => none
  | some h, some w =>
    if h = 0 ∨ w = 0 then none
    else
      let hm : ℚ := h / 100
      some (max 10 (min 50 (pyRound1 (w / (hm * hm)))))

/-- DietPlanGenerator.get_bmi_status: the BMI classification strings. -/
def get_bmi_status (bmi : Option ℚ) : String :=
  match bmi with
  | none => "Height and weight not set"
  | some b =>
    if b < 37/2 then "Underweight"
    else if b < 24 then "Normal weight"
    else if b < 28 then "Overweight"
    else "Obese"

/-- Numeric profile field invariant: absent or within the clamped range. -/
def optInRange (o : Option ℚ) (lo hi : ℚ) : Prop :=
  ∀ v, o = some v → lo ≤ v ∧ v ≤ hi

/-- The data-model invariant on one user record: goal in the enumeration,
numeric fields absent or within their clamped ranges. -/
def recordOK (u : UserRecord) : Prop :=
  goalOK u.goal ∧ optInRange u.height 100 250 ∧
    optInRange u.weight 30 200 ∧ optInRange u.target_weight 30 200

/-- The data-model invariant on the store: pairwise-distinct usernames and
every record well-formed. -/
def storeOK (users : List UserRecord) : Prop :=
  users.Pairwise (fun a b => a.username ≠ b.username) ∧ ∀ u ∈ users, recordOK u

/-! ## Helper lemmas -/

/-- Evaluate pyRound when the value is in the lower half of its unit interval. -/
lemma pyRound_eq_low (q : ℚ) (n : ℤ) (h1 : (n:ℚ) ≤ q) (h2 : q < (n:ℚ) + 1/2) :
    pyRound q = n := by
  have hf : ⌊q⌋ = n := Int.floor_eq_iff.mpr ⟨h1, by linarith⟩
  unfold pyRound
  rw [hf, if_pos (by linarith)]

/-- Evaluate pyRound when the value is in the upper half of its unit interval. -/
lemma pyRound_eq_up (q : ℚ) (n : ℤ) (h1 : (n:ℚ) + 1/2 < q) (h2 : q < (n:ℚ) + 1) :
    pyRound q = n + 1 := by
  have hf : ⌊q⌋ = n := Int.floor_eq_iff.mpr ⟨by linarith, by linarith⟩
  unfold pyRound
  rw [hf, if_neg (by linarith), if_pos (by linarith)]

/-- The clamp in safe_float_convert, written with max and min. -/
lemma clamp_eq_max_min (q lo hi : ℚ) (h : lo ≤ hi) :
    (if q < lo then lo else if q > hi then hi else q) = max lo (min hi q) := by
  rcases lt_or_le q lo with h1 | h1
  · rw [if_pos h1, min_eq_right (h1.le.trans h), max_eq_left h1.le]
  · rw [if_neg (not_lt.mpr h1)]
    rcases lt_or_le hi q with h2 | h2
    · rw [if_pos h2, min_eq_left h2.le, max_eq_right h]
    · rw [if_neg (not_lt.mpr h2), min_eq_right h2, max_eq_right h1]

/-- A value produced by safe_float_convert lies in the clamping range. -/
lemma safe_float_convert_some (i : NumInput) (lo hi v : ℚ) (hlh : lo ≤ hi)
    (h : safe_float_convert i lo hi = some v) : lo ≤ v ∧ v ≤ hi := by
  cases i with
  | absent => simp [safe_float_convert] at h
  | empty => simp [safe_float_convert] at h
  | unparsable => simp [safe_float_convert] at h
  | parsed q =>
    simp only [safe_float_convert, Option.some_inj] at h
    rw [clamp_eq_max_min q lo hi hlh] at h
    constructor
    · rw [← h]; exact le_max_left lo (min hi q)
    · rw [← h]; exact max_le hlh (min_le_left hi q)

/-! ## C6: daily calorie target -/

/-- Claim C6: for every user record whose profile fields satisfy the data-model
ranges, calculate_daily_calories equals the truncation of
base = 10*weight + 6.25*height - 5*25 + 5 (height defaulting to 170 and weight
to 65 when absent), minus 400 for weight-loss, plus 300 for muscle-gain,
unchanged otherwise, floored at 1200. -/
theorem C6_daily_calorie_target (u : UserRecord)
    (hh : optInRange u.height 100 250) (hw : optInRange u.weight 30 200) :
    calculate_daily_calories u =
      max 1200 (pyTrunc
        (if u.goal = "weight-loss" then
          10 * (u.weight.getD 65) + (625/100) * (u.height.getD 170) - 5 * 25 + 5 - 400
        else if u.goal = "muscle-gain" then
          10 * (u.weight.getD 65) + (625/100) * (u.height.getD 170) - 5 * 25 + 5 + 300
        else
          10 * (u.weight.getD 65) + (625/100) * (u.height.getD 170) - 5 * 25 + 5)) := by
  have hh' : (match u.height with
      | none => (170 : ℚ)
      | some v => if v = 0 then 170 else v) = u.height.getD 170 := by
    cases hcase : u.height with
    | none => rfl
    | some v =>
      have h100 := (hh v hcase).1
      simp only [Option.getD_some]
      rw [if_neg]
      intro h0
      rw [h0] at h100
      norm_num at h100
  have hw' : (match u.weight with
      | none => (65 : ℚ)
      | some v => if v = 0 then 65 else v) = u.weight.getD 65 := by
    cases hcase : u.weight with
    | none => rfl
    | some v =>
      have h30 := (hw v hcase).1
      simp only [Option.getD_some]
      rw [if_neg]
      intro h0
      rw [h0] at h30
      norm_num at h30
  unfold calculate_daily_calories
  rw [hh', hw']

/-- Witness for C6 at a concrete record (170 cm, 70 kg, weight-loss). -/
theorem C6_daily_calorie_target_witness :
    calculate_daily_calories
        ⟨"alice", "h", "", some 170, some 70, none, "weight-loss", "t"⟩ =
      max 1200 (pyTrunc
        (if ("weight-loss" : String) = "weight-loss" then
          10 * ((some (70:ℚ)).getD 65) + (625/100) * ((some (170:ℚ)).getD 170) - 5 * 25 + 5 - 400
        else if ("weight-loss" : String) = "muscle-gain" then
          10 * ((some (70:ℚ)).getD 65) + (625/100) * ((some (170:ℚ)).getD 170) - 5 * 25 + 5 + 300
        else
          10 * ((some (70:ℚ)).getD 65) + (625/100) * ((some (170:ℚ)).getD 170) - 5 * 25 + 5)) :=
  C6_daily_calorie_target ⟨"alice", "h", "", some 170, some 70, none, "weight-loss", "t"⟩
    (by intro v hv; rw [Option.some_inj] at hv; rw [← hv]; norm_num)
    (by intro v hv; rw [Option.some_inj] at hv; rw [← hv]; norm_num)

/-! ## C9: BMI and its classification -/

/-- Claim C9: calculate_bmi is None when either input is absent or zero and
otherwise equals weight / (height/100)^2 rounded to one decimal and clamped
into [10,50]; get_bmi_status classifies None as unset, below 18.5 as
Underweight, [18.5,24) as Normal, [24,28) as Overweight, at least 28 as Obese;
bmi(170,70) is 24.2 and classifies as Overweight. -/
theorem C9_bmi_classification :
    (∀ w, calculate_bmi none w = none) ∧
    (∀ h, calculate_bmi h none = none) ∧
    (∀ w, calculate_bmi (some 0) w = none) ∧
    (∀ h, calculate_bmi h (some 0) = none) ∧
    (∀ hv wv : ℚ, hv ≠ 0 → wv ≠ 0 →
      calculate_bmi (some hv) (some wv) =
        some (max 10 (min 50 (pyRound1 (wv / (hv/100 * (hv/100))))))) ∧
    get_bmi_status none = "Height and weight not set" ∧
    (∀ b : ℚ, b < 37/2 → get_bmi_status (some b) = "Underweight") ∧
    (∀ b : ℚ, 37/2 ≤ b → b < 24 → get_bmi_status (some b) = "Normal weight") ∧
    (∀ b : ℚ, 24 ≤ b → b < 28 → get_bmi_status (some b) = "Overweight") ∧
    (∀ b : ℚ, 28 ≤ b → get_bmi_status (some b) = "Obese") ∧
    calculate_bmi (some 170) (some 70) = some (242/10) ∧
    get_bmi_status (some (242/10)) = "Overweight" ∧
    get_bmi_status (some 24) = "Overweight" ∧
    get_bmi_status (some 28) = "Obese" := by
  have hval : calculate_bmi (some 170) (some 70) = some (242/10) := by
    simp only [calculate_bmi]
    rw [if_neg (by norm_num)]
    have hq : pyRound1 ((70:ℚ) / ((170:ℚ)/100 * ((170:ℚ)/100))) = 242/10 := by
      unfold pyRound1
      have harg : (70:ℚ) / ((170:ℚ)/100 * ((170:ℚ)/100)) * 10 = 70000/289 := by
        norm_num
      rw [harg, pyRound_eq_low (70000/289) 242 (by norm_num) (by norm_num)]
      norm_num
    rw [hq, min_eq_right (by norm_num), max_eq_right (by norm_num)]
  refine ⟨?_, ?_, ?_, ?_, ?_, rfl, ?_, ?_, ?_, ?_, hval, ?_, ?_, ?_⟩
  · intro w; cases w <;> rfl
  · intro h; cases h <;> rfl
  · intro w
    cases w with
    | none => rfl
    | some wv => simp [calculate_bmi]
  · intro h
    cases h with
    | none => rfl
    | some hv => simp [calculate_bmi]
  · intro hv wv h0 w0
    simp only [calculate_bmi]
    rw [if_neg]
    push_neg
    exact ⟨h0, w0⟩
  · intro b hb
    simp only [get_bmi_status]
    rw [if_pos hb]
  · intro b hb1 hb2
    simp only [get_bmi_status]
    rw [if_neg (not_lt.mpr hb1), if_pos hb2]
  · intro b hb1 hb2
    simp only [get_bmi_status]
    rw [if_neg (not_lt.mpr (le_trans (by norm_num) hb1)), if_neg (not_lt.mpr hb1), if_pos hb2]
  · intro b hb
    simp only [get_bmi_status]
    rw [if_neg (not_lt.mpr (le_trans (by norm_num) hb)),
      if_neg (not_lt.mpr (le_trans (by norm_num) hb)), if_neg (not_lt.mpr hb)]
  · simp only [get_bmi_status]
    rw [if_neg (by norm_num), if_neg (by norm_num), if_pos (by norm_num)]
  · simp only [get_bmi_status]
    rw [if_neg (by norm_num), if_neg (by norm_num), if_pos (by norm_num)]
  · simp only [get_bmi_status]
    rw [if_neg (by norm_num), if_neg (by norm_num), if_neg (by norm_num)]

/-- Witness for C9: the formula case at 170 cm / 70 kg and the Normal band at 20. -/
theorem C9_bmi_classification_witness :
    calculate_bmi (some 170) (some 70) =
        some (max 10 (min 50 (pyRound1 (70 / ((170:ℚ)/100 * (170/100)))))) ∧
    get_bmi_status (some 20) = "Normal weight" :=
  ⟨C9_bmi_classification.2.2.2.2.1 170 70 (by norm_num) (by norm_num),
   C9_bmi_classification.2.2.2.2.2.2.2.1 20 (by norm_num) (by norm_num)⟩

/-! ## C8: food analysis -/

/-- The clamped effective amount used by analyze_food, in max/min form. -/
lemma amount_clamp (a : NumInput) :
    (safe_float_convert a 1 10000).getD 100 =
      (match a with
       | NumInput.parsed q => max 1 (min 10000 q)
       | _ => (100 : ℚ)) := by
  cases a with
  | absent => rfl
  | empty => rfl
  | unparsable => rfl
  | parsed q =>
    simp only [safe_float_convert, Option.getD_some]
    exact clamp_eq_max_min q 1 10000 (by norm_num)

/-- Evaluate a floored pyRound at a concrete value. -/
lemma max_pyRound_eval (lo : ℤ) (q : ℚ) (n : ℤ) (h1 : (n:ℚ) ≤ q)
    (h2 : q < (n:ℚ) + 1/2) (h3 : lo ≤ n) : max lo (pyRound q) = n := by
  rw [pyRound_eq_low q n h1 h2, max_eq_right h3]

/-- Evaluate a floored pyRound1 at a concrete value. -/
lemma max_pyRound1_eval (lo : ℚ) (q : ℚ) (n : ℤ) (h1 : (n:ℚ) ≤ q * 10)
    (h2 : q * 10 < (n:ℚ) + 1/2) (h3 : lo ≤ (n:ℚ)/10) :
    max lo (pyRound1 q) = (n:ℚ)/10 := by
  unfold pyRound1
  rw [pyRound_eq_low (q * 10) n h1 h2, max_eq_right h3]

/-- Claim C8: for every food name passing the validator and present in the
catalog, analyze_food clamps the amount into [1,10000] (default 100 when
absent or unparsable) and scales each nutrient by amount/100, with calories
rounded to an integer floored at 0 and the other nutrients rounded to one
decimal floored at 0, missing sugar counting as 0; Chicken Breast at 200
yields calories 330, protein 62.0, carbs 0, fat 7.2, sugar 0; a name absent
from the catalog fails with the food-not-found error. -/
theorem C8_analyze_food (name : String) (a : NumInput) (food : FoodEntry)
    (hv : validate_food_name name = true) (hf : lookupFood name = some food) :
    analyze_food name a =
      Except.ok
        { calories := max 0 (pyRound (food.calories *
            ((match a with
              | NumInput.parsed q => max 1 (min 10000 q)
              | _ => (100:ℚ)) / 100)))
          protein := max 0 (pyRound1 (food.protein *
            ((match a with
              | NumInput.parsed q => max 1 (min 10000 q)
              | _ => (100:ℚ)) / 100)))
          carbs := max 0 (pyRound1 (food.carbs *
            ((match a with
              | NumInput.parsed q => max 1 (min 10000 q)
              | _ => (100:ℚ)) / 100)))
          fat := max 0 (pyRound1 (food.fat *
            ((match a with
              | NumInput.parsed q => max 1 (min 10000 q)
              | _ => (100:ℚ)) / 100)))
          sugar := max 0 (pyRound1 ((food.sugar.getD 0) *
            ((match a with
              | NumInput.parsed q => max 1 (min 10000 q)
              | _ => (100:ℚ)) / 100))) } ∧
    analyze_food "Chicken Breast" (NumInput.parsed 200) =
      Except.ok { calories := 330, protein := 62, carbs := 0, fat := 72/10, sugar := 0 } ∧
    (∀ n2 a2, validate_food_name n2 = true → lookupFood n2 = none →
      analyze_food n2 a2 = Except.error "Sorry, this food was not found in the database") := by
  refine ⟨?_, ?_, ?_⟩
  · unfold analyze_food
    rw [hv, if_neg (by simp), hf, amount_clamp]
  · unfold analyze_food
    rw [if_neg (by decide),
      show lookupFood "Chicken Breast" = some ⟨165, 31, 0, 36/10, some 0⟩ from rfl,
      amount_clamp]
    simp only [Except.ok.injEq, Analysis.mk.injEq, Option.getD_some]
    refine ⟨?_, ?_, ?_, ?_, ?_⟩
    · exact max_pyRound_eval 0 _ 330 (by norm_num [max_def, min_def])
        (by norm_num [max_def, min_def]) (by norm_num)
    · rw [max_pyRound1_eval 0 _ 620 (by norm_num [max_def, min_def])
        (by norm_num [max_def, min_def]) (by norm_num)]
      norm_num
    · rw [max_pyRound1_eval 0 _ 0 (by norm_num [max_def, min_def])
        (by norm_num [max_def, min_def]) (by norm_num)]
      norm_num
    · rw [max_pyRound1_eval 0 _ 72 (by norm_num [max_def, min_def])
        (by norm_num [max_def, min_def]) (by norm_num)]
      norm_num
    · rw [max_pyRound1_eval 0 _ 0 (by norm_num [max_def, min_def])
        (by norm_num [max_def, min_def]) (by norm_num)]
      norm_num
  · intro n2 a2 hv2 hf2
    unfold analyze_food
    rw [hv2, if_neg (by simp), hf2]

/-- Witness for C8 at the Chicken Breast catalog entry with amount 200. -/
theorem C8_analyze_food_witness :
    analyze_food "Chicken Breast" (NumInput.parsed 200) =
      Except.ok { calories := 330, protein := 62, carbs := 0, fat := 72/10, sugar := 0 } :=
  (C8_analyze_food "Chicken Breast" (NumInput.parsed 200) ⟨165, 31, 0, 36/10, some 0⟩
    (by decide) rfl).2.1

/-! ## C7: diet plan generation -/

/-- Claim C7: generate_diet_plan scales the goal's template (falling back to
the maintenance template for unrecognized goals) by
dailyCalorieTarget / sum of template calories with rounding, every output item
respects the floors calories at least 100, protein 5, carbs 10, fat 5, and the
output order is Breakfast, Lunch, Dinner as in the template. -/
theorem C7_generate_plan (u : UserRecord) :
    generate_diet_plan u =
      (diet_plan_templates u.goal).map
        (scaleMeal ((calculate_daily_calories u : ℚ) /
          ((diet_plan_templates u.goal).map (fun m => m.calories)).sum)) ∧
    (u.goal ≠ "weight-loss" → u.goal ≠ "muscle-gain" →
      diet_plan_templates u.goal = diet_plan_templates "maintenance") ∧
    (generate_diet_plan u).map (fun m => m.name) = ["Breakfast", "Lunch", "Dinner"] ∧
    (∀ m ∈ generate_diet_plan u,
      100 ≤ m.calories ∧ 5 ≤ m.protein ∧ 10 ≤ m.carbs ∧ 5 ≤ m.fat) := by
  refine ⟨rfl, ?_, ?_, ?_⟩
  · intro h1 h2
    unfold diet_plan_templates
    rw [if_neg h1, if_neg h2, if_neg (by decide), if_neg (by decide)]
  · unfold generate_diet_plan diet_plan_templates
    split_ifs <;> rfl
  · intro m hm
    simp only [generate_diet_plan] at hm
    rcases List.mem_map.mp hm with ⟨tm, htm, rfl⟩
    exact ⟨le_max_left _ _, le_max_left _ _, le_max_left _ _, le_max_left _ _⟩

/-- Witness for C7: plan order at a concrete maintenance-goal record. -/
theorem C7_generate_plan_witness :
    (generate_diet_plan
        ⟨"alice", "h", "", some 170, some 70, none, "maintenance", "t"⟩).map
      (fun m => m.name) = ["Breakfast", "Lunch", "Dinner"] :=
  (C7_generate_plan ⟨"alice", "h", "", some 170, some 70, none, "maintenance", "t"⟩).2.2.1

/-! ## C3: authentication failures -/

/-- Claim C3: login never succeeds when every record carrying the requested
username fails password verification (which covers both a wrong password and
an unknown username), and the failure reason is the single string
"Incorrect username or password" in both cases; conversely a success requires
a stored record with that username whose hash verifies. -/
theorem C3_login_failure (verify : String → String → Bool)
    (users : List UserRecord) (username password : String) :
    ((∀ u ∈ users, u.username = username → verify password u.password = false) →
      login verify username password users =
        Except.error "Incorrect username or password") ∧
    (∀ pub, login verify username password users = Except.ok pub →
      ∃ u ∈ users, u.username = username ∧ verify password u.password = true) := by
  induction users with
  | nil =>
    constructor
    · intro _; rfl
    · intro pub hpub
      exact Except.noConfusion hpub
  | cons u rest ih =>
    constructor
    · intro hall
      unfold login
      rw [if_neg]
      · exact ih.1 (fun v hv hv2 => hall v (List.mem_cons_of_mem u hv) hv2)
      · rintro ⟨hu1, hu2⟩
        rw [hall u (List.mem_cons_self u rest) hu1] at hu2
        exact absurd hu2 (by simp)
    · intro pub hpub
      unfold login at hpub
      by_cases hc : u.username = username ∧ verify password u.password = true
      · rw [if_pos hc] at hpub
        exact ⟨u, List.mem_cons_self u rest, hc⟩
      · rw [if_neg hc] at hpub
        obtain ⟨v, hv, hp⟩ := ih.2 pub hpub
        exact ⟨v, List.mem_cons_of_mem u hv, hp⟩

/-- A concrete stand-in for bcrypt hashing, used only by the witnesses. -/
def testHash (p : String) : String := "$2b$" ++ p

/-- A concrete stand-in for bcrypt verification, used only by the witnesses. -/
def testVerify (p h : String) : Bool := h == "$2b$" ++ p

/-- The test hash never equals the plaintext (it is four characters longer). -/
lemma testHash_ne (p : String) : testHash p ≠ p := by
  intro h
  have hl := congrArg String.length h
  rw [testHash, String.length_append,
    show ("$2b$" : String).length = 4 from rfl] at hl
  omega

/-- Witness for C3: one registered user, a wrong password. -/
theorem C3_login_failure_witness :
    login testVerify "alice" "wrong1"
        [⟨"alice", testHash "secret1", "", none, none, none, "maintenance", "t"⟩] =
      Except.error "Incorrect username or password" :=
  (C3_login_failure testVerify
    [⟨"alice", testHash "secret1", "", none, none, none, "maintenance", "t"⟩]
    "alice" "wrong1").1 (by decide)

/-! ## C10: persistence failure on register -/

/-- When no stored username matches, the duplicate scan is false. -/
lemma any_username_false (users : List UserRecord) (username : String)
    (h : ∀ u ∈ users, u.username ≠ username) :
    users.any (fun u => u.username == username) = false := by
  rw [List.any_eq_false]
  intro x hx
  simp only [beq_iff_eq]
  exact h x hx

/-- Claim C10: when register passes all validations but the durable write
fails, it returns the data-save-error message with success false, while the new
user record has still been appended to the in-memory collection. -/
theorem C10_register_save_failure (hash : String → String) (now : String)
    (users : List UserRecord) (username password nickname : String)
    (h w tw : NumInput)
    (h1 : validate_username username = true)
    (h2 : validate_password password = true)
    (h3 : ∀ u ∈ users, u.username ≠ username) :
    register hash now false users username password nickname h w tw =
      (users ++ [newUserRecord hash now username password nickname h w tw],
        false, "Registration failed: data save error") := by
  unfold register
  rw [h1, h2, any_username_false users username h3,
    if_neg (by simp), if_neg (by simp), if_neg (by simp), if_neg (by simp)]

/-- Witness for C10 at concrete inputs. -/
theorem C10_register_save_failure_witness :
    register testHash "t" false [] "alice" "secret1" "" NumInput.absent
        NumInput.absent NumInput.absent =
      ([newUserRecord testHash "t" "alice" "secret1" "" NumInput.absent
          NumInput.absent NumInput.absent],
        false, "Registration failed: data save error") :=
  C10_register_save_failure testHash "t" [] "alice" "secret1" ""
    NumInput.absent NumInput.absent NumInput.absent
    (by decide) (by decide) (by simp)

/-! ## C2: register then authenticate -/

/-- login skips every record whose username does not match. -/
lemma login_append_no_match (verify : String → String → Bool)
    (username password : String) (l1 l2 : List UserRecord)
    (h : ∀ u ∈ l1, u.username ≠ username) :
    login verify username password (l1 ++ l2) =
      login verify username password l2 := by
  induction l1 with
  | nil => rfl
  | cons u rest ih =>
    rw [List.cons_append]
    show (if u.username = username ∧ verify password u.password = true
        then Except.ok (toPublic u)
        else login verify username password (rest ++ l2)) =
      login verify username password l2
    rw [if_neg]
    · exact ih (fun v hv => h v (List.mem_cons_of_mem u hv))
    · rintro ⟨hu1, _⟩
      exact h u (List.mem_cons_self u rest) hu1

/-- Claim C2: for credentials accepted by the validators, a successful register
followed immediately by login with the same credentials succeeds, and the
returned record has no password and no hash field. -/
theorem C2_register_then_login (hash : String → String)
    (verify : String → String → Bool) (now : String)
    (users : List UserRecord) (username password nickname : String)
    (h w tw : NumInput)
    (h1 : validate_username username = true)
    (h2 : validate_password password = true)
    (h3 : ∀ u ∈ users, u.username ≠ username)
    (h4 : verify password (hash password) = true) :
    (register hash now true users username password nickname h w tw).2.1 = true ∧
    ∃ r, login verify username password
          (register hash now true users username password nickname h w tw).1 =
        Except.ok r ∧
      "password" ∉ r.map Prod.fst ∧ "hash" ∉ r.map Prod.fst := by
  have hreg : register hash now true users username password nickname h w tw =
      (users ++ [newUserRecord hash now username password nickname h w tw],
        true, "Registration successful") := by
    unfold register
    rw [h1, h2, any_username_false users username h3,
      if_neg (by simp), if_neg (by simp), if_neg (by simp), if_pos rfl]
  rw [hreg]
  refine ⟨rfl,
    toPublic (newUserRecord hash now username password nickname h w tw), ?_, ?_, ?_⟩
  · rw [login_append_no_match verify username password users _ h3]
    unfold login
    rw [if_pos ⟨rfl, h4⟩]
  · simp [toPublic]
  · simp [toPublic]

/-- Witness for C2 with the concrete test hash scheme. -/
theorem C2_register_then_login_witness :
    (register testHash "t" true [] "alice" "secret1" "" NumInput.absent
        NumInput.absent NumInput.absent).2.1 = true ∧
    ∃ r, login testVerify "alice" "secret1"
          (register testHash "t" true [] "alice" "secret1" "" NumInput.absent
            NumInput.absent NumInput.absent).1 =
        Except.ok r ∧
      "password" ∉ r.map Prod.fst ∧ "hash" ∉ r.map Prod.fst :=
  C2_register_then_login testHash testVerify "t" [] "alice" "secret1" ""
    NumInput.absent NumInput.absent NumInput.absent
    (by decide) (by decide) (by simp) (by decide)

/-! ## C5: invalid goal on update -/

/-- Claim C5: for every existing user, update_profile with a goal outside the
enumeration fails with the invalid-goal message and returns the store
unchanged, regardless of the other fields in the same call. -/
theorem C5_invalid_goal_unchanged (saveOk : Bool) (users : List UserRecord)
    (username g : String) (k : ProfileUpdate)
    (hmem : ∃ u ∈ users, u.username = username)
    (hg : k.goal = some g) (hbad : ¬ goalOK g) :
    update_profile saveOk username k users = (users, false, "Invalid goal type") := by
  have hgv : goal_value_ok k = false := by
    unfold goal_value_ok
    simp only [hg]
    simp [hbad]
  revert hmem
  induction users with
  | nil =>
    intro hmem
    obtain ⟨u, hu, _⟩ := hmem
    exact absurd hu (by simp)
  | cons u rest ih =>
    intro hmem
    rw [update_profile_cases]
    by_cases hu : u.username = username
    · rw [if_pos hu, if_pos hgv]
    · rw [if_neg hu]
      have hrest : ∃ v ∈ rest, v.username = username := by
        obtain ⟨v, hv, hveq⟩ := hmem
        cases List.mem_cons.mp hv with
        | inl h => exact absurd (h ▸ hveq) hu
        | inr h => exact ⟨v, h, hveq⟩
      rw [ih hrest]

/-- Witness for C5: goal "invalid-value" against a one-user store. -/
theorem C5_invalid_goal_unchanged_witness :
    update_profile true "alice"
        ⟨some "nick", none, none, none, some "invalid-value"⟩
        [⟨"alice", "h", "", some 170, some 70, none, "maintenance", "t"⟩] =
      ([⟨"alice", "h", "", some 170, some 70, none, "maintenance", "t"⟩],
        false, "Invalid goal type") :=
  C5_invalid_goal_unchanged true
    [⟨"alice", "h", "", some 170, some 70, none, "maintenance", "t"⟩]
    "alice" "invalid-value"
    ⟨some "nick", none, none, none, some "invalid-value"⟩
    ⟨⟨"alice", "h", "", some 170, some 70, none, "maintenance", "t"⟩, by simp, rfl⟩
    rfl (by decide)

/-! ## C4: empty-after-clamping fields do not overwrite -/

/-- update_profile on a store whose first matching record is u rewrites exactly
that record, to either u itself (invalid goal) or applyUpdate u k. -/
lemma update_profile_first_match (saveOk : Bool) (username : String)
    (k : ProfileUpdate) (pre : List UserRecord) (u : UserRecord)
    (post : List UserRecord)
    (hpre : ∀ v ∈ pre, v.username ≠ username) (hu : u.username = username) :
    ∃ u', (update_profile saveOk username k (pre ++ u :: post)).1 =
        pre ++ u' :: post ∧
      (u' = u ∨ u' = applyUpdate u k) := by
  induction pre with
  | nil =>
    rw [List.nil_append, update_profile_cases, if_pos hu]
    by_cases hg : goal_value_ok k = false
    · rw [if_pos hg]
      exact ⟨u, rfl, Or.inl rfl⟩
    · rw [if_neg hg]
      refine ⟨applyUpdate u k, ?_, Or.inr rfl⟩
      cases saveOk <;> rfl
  | cons v pre ih =>
    rw [List.cons_append, update_profile_cases,
      if_neg (hpre v (List.mem_cons_self v pre))]
    obtain ⟨u', heq, hor⟩ := ih (fun x hx => hpre x (List.mem_cons_of_mem v hx))
    refine ⟨u', ?_, hor⟩
    show v :: (update_profile saveOk username k (pre ++ u :: post)).1 =
      (v :: pre) ++ u' :: post
    rw [heq, List.cons_append]

/-- Claim C4: for every existing user, a field present in the update but empty
after clamping (unparsable, empty or absent input) is treated as no change:
the stored field keeps its previous value, and a stored value is never
overwritten with an absent one. -/
theorem C4_empty_field_preserved (saveOk : Bool) (username : String)
    (k : ProfileUpdate) (pre post : List UserRecord) (u : UserRecord)
    (hpre : ∀ v ∈ pre, v.username ≠ username) (hu : u.username = username) :
    ∃ u', (update_profile saveOk username k (pre ++ u :: post)).1 =
        pre ++ u' :: post ∧
      (∀ i, k.height = some i → safe_float_convert i 100 250 = none →
        u'.height = u.height) ∧
      (∀ i, k.weight = some i → safe_float_convert i 30 200 = none →
        u'.weight = u.weight) ∧
      (∀ i, k.target_weight = some i → safe_float_convert i 30 200 = none →
        u'.target_weight = u.target_weight) ∧
      (u'.height = none → u.height = none) ∧
      (u'.weight = none → u.weight = none) ∧
      (u'.target_weight = none → u.target_weight = none) := by
  obtain ⟨u', heq, hor⟩ :=
    update_profile_first_match saveOk username k pre u post hpre hu
  refine ⟨u', heq, ?_⟩
  cases hor with
  | inl h =>
    subst h
    exact ⟨fun _ _ _ => rfl, fun _ _ _ => rfl, fun _ _ _ => rfl,
      fun hh => hh, fun hh => hh, fun hh => hh⟩
  | inr h =>
    subst h
    refine ⟨?_, ?_, ?_, ?_, ?_, ?_⟩
    · intro i hk hc; simp only [applyUpdate, hk, hc]
    · intro i hk hc; simp only [applyUpdate, hk, hc]
    · intro i hk hc; simp only [applyUpdate, hk, hc]
    · intro hnone
      simp only [applyUpdate] at hnone
      cases hk : k.height with
      | none => simp only [hk] at hnone; exact hnone
      | some i =>
        simp only [hk] at hnone
        cases hc : safe_float_convert i 100 250 with
        | none => simp only [hc] at hnone; exact hnone
        | some v =>
          simp only [hc] at hnone
          exact Option.noConfusion hnone
    · intro hnone
      simp only [applyUpdate] at hnone
      cases hk : k.weight with
      | none => simp only [hk] at hnone; exact hnone
      | some i =>
        simp only [hk] at hnone
        cases hc : safe_float_convert i 30 200 with
        | none => simp only [hc] at hnone; exact hnone
        | some v =>
          simp only [hc] at hnone
          exact Option.noConfusion hnone
    · intro hnone
      simp only [applyUpdate] at hnone
      cases hk : k.target_weight with
      | none => simp only [hk] at hnone; exact hnone
      | some i =>
        simp only [hk] at hnone
        cases hc : safe_float_convert i 30 200 with
        | none => simp only [hc] at hnone; exact hnone
        | some v =>
          simp only [hc] at hnone
          exact Option.noConfusion hnone

/-- Witness for C4: an unparsable height input against a one-user store. -/
theorem C4_empty_field_preserved_witness :
    ∃ u', (update_profile true "alice"
        ⟨none, some NumInput.unparsable, none, none, none⟩
        ([] ++ ⟨"alice", "h", "", some 170, some 70, none, "maintenance", "t"⟩ ::
          [])).1 =
        [] ++ u' :: [] ∧
      (∀ i, (⟨none, some NumInput.unparsable, none, none, none⟩ :
          ProfileUpdate).height = some i →
        safe_float_convert i 100 250 = none →
        u'.height = (⟨"alice", "h", "", some 170, some 70, none, "maintenance",
          "t"⟩ : UserRecord).height) ∧
      (∀ i, (⟨none, some NumInput.unparsable, none, none, none⟩ :
          ProfileUpdate).weight = some i →
        safe_float_convert i 30 200 = none →
        u'.weight = (⟨"alice", "h", "", some 170, some 70, none, "maintenance",
          "t"⟩ : UserRecord).weight) ∧
      (∀ i, (⟨none, some NumInput.unparsable, none, none, none⟩ :
          ProfileUpdate).target_weight = some i →
        safe_float_convert i 30 200 = none →
        u'.target_weight = (⟨"alice", "h", "", some 170, some 70, none,
          "maintenance", "t"⟩ : UserRecord).target_weight) ∧
      (u'.height = none → (⟨"alice", "h", "", some 170, some 70, none,
        "maintenance", "t"⟩ : UserRecord).height = none) ∧
      (u'.weight = none → (⟨"alice", "h", "", some 170, some 70, none,
        "maintenance", "t"⟩ : UserRecord).weight = none) ∧
      (u'.target_weight = none → (⟨"alice", "h", "", some 170, some 70, none,
        "maintenance", "t"⟩ : UserRecord).target_weight = none) :=
  C4_empty_field_preserved true "alice"
    ⟨none, some NumInput.unparsable, none, none, none⟩ [] []
    ⟨"alice", "h", "", some 170, some 70, none, "maintenance", "t"⟩
    (by simp) rfl

/-! ## C1: the data-model invariant -/

/-- If the goal argument passed the boolean check, any present goal is valid. -/
lemma goal_value_ok_sound (k : ProfileUpdate) (h : goal_value_ok k = true) :
    ∀ g, k.goal = some g → goalOK g := by
  intro g hg
  unfold goal_value_ok at h
  simp only [hg] at h
  exact of_decide_eq_true h

/-- applyUpdate preserves the per-record invariant when any present goal
argument is valid. -/
lemma applyUpdate_recordOK (u : UserRecord) (k : ProfileUpdate)
    (hu : recordOK u) (hg : ∀ g, k.goal = some g → goalOK g) :
    recordOK (applyUpdate u k) := by
  obtain ⟨hgoal, hh, hw, htw⟩ := hu
  refine ⟨?_, ?_, ?_, ?_⟩
  · simp only [applyUpdate]
    cases hk : k.goal with
    | none => simp only [hk]; exact hgoal
    | some g => simp only [hk]; exact hg g hk
  · simp only [applyUpdate]
    cases hk : k.height with
    | none => simp only [hk]; exact hh
    | some i =>
      simp only [hk]
      cases hc : safe_float_convert i 100 250 with
      | none => simp only [hc]; exact hh
      | some v =>
        simp only [hc]
        intro x hx
        rw [Option.some_inj] at hx
        rw [← hx]
        exact safe_float_convert_some i 100 250 v (by norm_num) hc
  · simp only [applyUpdate]
    cases hk : k.weight with
    | none => simp only [hk]; exact hw
    | some i =>
      simp only [hk]
      cases hc : safe_float_convert i 30 200 with
      | none => simp only [hc]; exact hw
      | some v =>
        simp only [hc]
        intro x hx
        rw [Option.some_inj] at hx
        rw [← hx]
        exact safe_float_convert_some i 30 200 v (by norm_num) hc
  · simp only [applyUpdate]
    cases hk : k.target_weight with
    | none => simp only [hk]; exact htw
    | some i =>
      simp only [hk]
      cases hc : safe_float_convert i 30 200 with
      | none => simp only [hc]; exact htw
      | some v =>
        simp only [hc]
        intro x hx
        rw [Option.some_inj] at hx
        rw [← hx]
        exact safe_float_convert_some i 30 200 v (by norm_num) hc

/-- The record built by register satisfies the per-record invariant. -/
lemma newUserRecord_recordOK (hash : String → String)
    (now username password nickname : String) (h w tw : NumInput) :
    recordOK (newUserRecord hash now username password nickname h w tw) := by
  refine ⟨Or.inr (Or.inr rfl), ?_, ?_, ?_⟩
  · intro v hv
    exact safe_float_convert_some h 100 250 v (by norm_num) hv
  · intro v hv
    exact safe_float_convert_some w 30 200 v (by norm_num) hv
  · intro v hv
    exact safe_float_convert_some tw 30 200 v (by norm_num) hv

/-- update_profile preserves any record projection that applyUpdate leaves
unchanged (username, password, register_time). -/
lemma update_profile_map_eq {α : Type} (saveOk : Bool) (username : String)
    (k : ProfileUpdate) (f : UserRecord → α)
    (hf : ∀ v, f (applyUpdate v k) = f v) :
    ∀ users, (update_profile saveOk username k users).1.map f = users.map f := by
  intro users
  induction users with
  | nil => rfl
  | cons u rest ih =>
    rw [update_profile_cases]
    by_cases hu : u.username = username
    · rw [if_pos hu]
      by_cases hg : goal_value_ok k = false
      · rw [if_pos hg]
      · rw [if_neg hg]
        cases saveOk <;> simp [hf]
    · rw [if_neg hu]
      simp only [List.map_cons, ih]

/-- Pairwise-distinct usernames transfer along equal username projections. -/
lemma pairwise_username_congr (l1 l2 : List UserRecord)
    (h : l1.map (fun u => u.username) = l2.map (fun u => u.username))
    (hp : l2.Pairwise (fun a b => a.username ≠ b.username)) :
    l1.Pairwise (fun a b => a.username ≠ b.username) := by
  have h2 : (l2.map (fun u => u.username)).Pairwise (fun a b => a ≠ b) :=
    List.pairwise_map.mpr hp
  rw [← h] at h2
  exact List.pairwise_map.mp h2

/-- update_profile keeps every record well-formed. -/
lemma update_profile_recordOK (saveOk : Bool) (username : String)
    (k : ProfileUpdate) :
    ∀ users, (∀ u ∈ users, recordOK u) →
      ∀ v ∈ (update_profile saveOk username k users).1, recordOK v := by
  intro users
  induction users with
  | nil =>
    intro _ v hv
    exact absurd hv (by simp [update_profile])
  | cons u rest ih =>
    intro hall v hv
    rw [update_profile_cases] at hv
    by_cases hu : u.username = username
    · rw [if_pos hu] at hv
      by_cases hg : goal_value_ok k = false
      · rw [if_pos hg] at hv
        exact hall v hv
      · rw [if_neg hg] at hv
        have hv' : v ∈ applyUpdate u k :: rest := by
          cases saveOk
          · exact hv
          · exact hv
        cases List.mem_cons.mp hv' with
        | inl hve =>
          rw [hve]
          exact applyUpdate_recordOK u k (hall u (List.mem_cons_self u rest))
            (goal_value_ok_sound k (by rwa [Bool.not_eq_false] at hg))
        | inr hvm => exact hall v (List.mem_cons_of_mem u hvm)
    · rw [if_neg hu] at hv
      cases List.mem_cons.mp hv with
      | inl hve => rw [hve]; exact hall u (List.mem_cons_self u rest)
      | inr hvm =>
        exact ih (fun x hx => hall x (List.mem_cons_of_mem u hx)) v hvm

/-- Claim C1: register and update_profile preserve the data-model invariant
(unique usernames, goal in the enumeration, clamped-or-absent numeric fields);
every record register leaves in the store is either an old record or carries
the hash of the password, never the plaintext; update_profile changes no
username, no stored hash and no registration time (and login, embedded as a
pure function of the store, mutates nothing by construction). -/
theorem C1_invariant_preservation (hash : String → String) (now : String)
    (saveOk : Bool) (users : List UserRecord)
    (username password nickname : String) (h w tw : NumInput)
    (k : ProfileUpdate)
    (hstore : storeOK users) (hhash : ∀ p, hash p ≠ p) :
    storeOK (register hash now saveOk users username password nickname h w tw).1 ∧
    (∀ u ∈ (register hash now saveOk users username password nickname h w tw).1,
      u ∈ users ∨ u.password ≠ password) ∧
    storeOK (update_profile saveOk username k users).1 ∧
    (update_profile saveOk username k users).1.map (fun u => u.username) =
      users.map (fun u => u.username) ∧
    (update_profile saveOk username k users).1.map (fun u => u.password) =
      users.map (fun u => u.password) ∧
    (update_profile saveOk username k users).1.map (fun u => u.register_time) =
      users.map (fun u => u.register_time) := by
  have hreg : (register hash now saveOk users username password nickname h w tw).1 =
        users ∨
      ((register hash now saveOk users username password nickname h w tw).1 =
          users ++ [newUserRecord hash now username password nickname h w tw] ∧
        ∀ u ∈ users, u.username ≠ username) := by
    unfold register
    by_cases h1 : validate_username username = false
    · rw [if_pos h1]; exact Or.inl rfl
    · rw [if_neg h1]
      by_cases h2 : validate_password password = false
      · rw [if_pos h2]; exact Or.inl rfl
      · rw [if_neg h2]
        by_cases h3 : users.any (fun u => u.username == username) = true
        · rw [if_pos h3]; exact Or.inl rfl
        · rw [if_neg h3]
          refine Or.inr ⟨?_, ?_⟩
          · cases saveOk <;> rfl
          · intro u hu
            rw [Bool.not_eq_true, List.any_eq_false] at h3
            have := h3 u hu
            simpa using this
  have hmapu := update_profile_map_eq saveOk username k
    (fun u => u.username) (fun v => rfl) users
  refine ⟨?_, ?_, ?_, hmapu, ?_, ?_⟩
  · cases hreg with
    | inl he => rw [he]; exact hstore
    | inr he =>
      obtain ⟨he, hnd⟩ := he
      rw [he]
      constructor
      · rw [List.pairwise_append]
        refine ⟨hstore.1, List.pairwise_singleton _ _, ?_⟩
        intro a ha b hb
        rw [List.mem_singleton] at hb
        rw [hb]
        exact hnd a ha
      · intro u hu
        cases List.mem_append.mp hu with
        | inl hm => exact hstore.2 u hm
        | inr hm =>
          rw [List.mem_singleton] at hm
          rw [hm]
          exact newUserRecord_recordOK hash now username password nickname h w tw
  · intro u hu
    cases hreg with
    | inl he => rw [he] at hu; exact Or.inl hu
    | inr he =>
      rw [he.1] at hu
      cases List.mem_append.mp hu with
      | inl hm => exact Or.inl hm
      | inr hm =>
        rw [List.mem_singleton] at hm
        refine Or.inr ?_
        rw [hm]
        exact hhash password
  · exact ⟨pairwise_username_congr _ _ hmapu hstore.1,
      update_profile_recordOK saveOk username k users hstore.2⟩
  · exact update_profile_map_eq saveOk username k
      (fun u => u.password) (fun v => rfl) users
  · exact update_profile_map_eq saveOk username k
      (fun u => u.register_time) (fun v => rfl) users

/-- Witness for C1: the invariant after a concrete register into the empty
store, with the concrete test hash scheme. -/
theorem C1_invariant_preservation_witness :
    storeOK (register testHash "t" true [] "alice" "secret1" "" NumInput.absent
        NumInput.absent NumInput.absent).1 ∧
    (∀ u ∈ (register testHash "t" true [] "alice" "secret1" "" NumInput.absent
        NumInput.absent NumInput.absent).1,
      u ∈ ([] : List UserRecord) ∨ u.password ≠ "secret1") :=
  ⟨(C1_invariant_preservation testHash "t" true [] "alice" "secret1" ""
      NumInput.absent NumInput.absent NumInput.absent ProfileUpdate.empty
      ⟨List.Pairwise.nil, by simp⟩ testHash_ne).1,
    (C1_invariant_preservation testHash "t" true [] "alice" "secret1" ""
      NumInput.absent NumInput.absent NumInput.absent ProfileUpdate.empty
      ⟨List.Pairwise.nil, by simp⟩ testHash_ne).2.1⟩

end HET
